import Mathlib

/-!
Shallow embedding of the download-session logic of `src/bot.py` (a Telegram
video-downloader bot built on python-telegram-bot, yt-dlp and ffmpeg), together
with theorems settling the specification claims about it.

The embedding models, faithfully to the python source:
  - the python string operations used by `handle_url` (strip, substring test,
    split, replace, startswith) as executable functions on `List Char`;
  - `VideoProcessor.select_best_format` (automatic-best pick);
  - `present_quality_options` (button construction: size filter, video/audio
    split, truncation, synthetic auto button);
  - the URL normalisation and duration policy of `handle_url`;
  - the download pipeline `process_download` / `send_single_video` /
    `split_and_send_video`, with the filesystem effects of the `finally`
    blocks made explicit on a small `FS` state, and external collaborators
    (yt-dlp fetch, ffmpeg segmentation, Telegram sends) as an `Env` record of
    outcomes;
  - the handler-level event machine (URL submission, quality callback,
    scheduled auto-select job), on which the selection-race claims are stated.
-/

namespace VideoBot

/-! ## Python string primitives -/

/-- Whitespace removed by python `str.strip()`. -/
def isPyWs (c : Char) : Bool :=
  c == ' ' || c == '\t' || c == '\n' || c == '\r' || c == '\x0b' || c == '\x0c'

/-- Python `str.strip()`. -/
def pyStrip (s : String) : String :=
  String.mk (((s.toList.dropWhile isPyWs).reverse.dropWhile isPyWs).reverse)

/-- Boolean list-prefix test (python `startswith` on the character level). -/
def isPrefixL : List Char → List Char → Bool
  | [], _ => true
  | _ :: _, [] => false
  | a :: as, b :: bs => a == b && isPrefixL as bs

/-- Python substring containment `pat in s` on the character level. -/
def hasSubL (pat : List Char) : List Char → Bool
  | [] => isPrefixL pat []
  | c :: rest => isPrefixL pat (c :: rest) || hasSubL pat rest

/-- Python `pat in s`. -/
def hasSub (s pat : String) : Bool := hasSubL pat.toList s.toList

/-- Python `s.startswith(pre)`. -/
def pyStartsWith (s pre : String) : Bool := isPrefixL pre.toList s.toList

/-- Worker for `pySplit`: fuel-indexed left-to-right non-overlapping split. -/
def splitL (pat : List Char) : Nat → List Char → List Char → List (List Char)
  | 0, acc, l => [acc.reverse ++ l]
  | _ + 1, acc, [] => [acc.reverse]
  | fuel + 1, acc, c :: rest =>
    if isPrefixL pat (c :: rest) then
      acc.reverse :: splitL pat fuel [] ((c :: rest).drop pat.length)
    else
      splitL pat fuel (c :: acc) rest

/-- Python `s.split(pat)` for a non-empty separator. -/
def pySplit (s pat : String) : List String :=
  (splitL pat.toList (s.toList.length + 1) [] s.toList).map String.mk

/-- Worker for `pyReplace`: fuel-indexed left-to-right non-overlapping replace. -/
def replaceL (pat rep : List Char) : Nat → List Char → List Char
  | 0, l => l
  | _ + 1, [] => []
  | fuel + 1, c :: rest =>
    if isPrefixL pat (c :: rest) then
      rep ++ replaceL pat rep fuel ((c :: rest).drop pat.length)
    else
      c :: replaceL pat rep fuel rest

/-- Python `s.replace(pat, rep)` for a non-empty pattern. -/
def pyReplace (s pat rep : String) : String :=
  String.mk (replaceL pat.toList rep.toList (s.toList.length + 1) s.toList)

/-- Lexicographic character-list comparison (python string `<=` on code points). -/
def leChars : List Char → List Char → Bool
  | [], _ => true
  | _ :: _, [] => false
  | a :: as, b :: bs => if a == b then leChars as bs else decide (a < b)

/-- Python string comparison `a <= b`. -/
def leString (a b : String) : Bool := leChars a.toList b.toList

/-- Stable insertion used by `pySorted`. -/
def insertSorted (x : String) : List String → List String
  | [] => [x]
  | y :: ys => if leString x y then x :: y :: ys else y :: insertSorted x ys

/-- Python `sorted` on strings (stable, ascending). -/
def pySorted : List String → List String
  | [] => []
  | x :: xs => insertSorted x (pySorted xs)

/-! ## Constants from bot.py -/

def MAX_FILE_SIZE : Nat := 50 * 1024 * 1024
def CHUNK_DURATION : Nat := 600
def LONG_VIDEO_DURATION : Nat := 30 * 60
def VERY_LONG_DURATION : Nat := 120 * 60
def QUALITY_TIMEOUT : Nat := 30
def PRESENT_SIZE_LIMIT : Nat := 500 * 1024 * 1024

/-! ## Data model -/

/-- One yt-dlp format descriptor (the dict fields bot.py reads; an absent key
is `none`). -/
structure MediaFormat where
  format_id : String
  ext : Option String := none
  acodec : Option String := none
  vcodec : Option String := none
  format_note : Option String := none
  filesize : Option Nat := none
  height : Option Nat := none
  abr : Option Nat := none
  tbr : Option Nat := none
deriving DecidableEq, Repr

/-- The `video_info` dict stored by `handle_url` in `context.user_data`. -/
structure VideoInfo where
  url : String
  title : String
  duration : Nat
  formats : List MediaFormat
  best_format : String
deriving DecidableEq, Repr

/-- What `VideoProcessor.get_formats_info` returns for a URL (duration, title
and format list of the extracted info). -/
structure ExtractInfo where
  duration : Nat
  title : String
  formats : List MediaFormat
deriving DecidableEq, Repr

/-! ## VideoProcessor.select_best_format -/

/-- The filter in `select_best_format`: skip video-only formats, keep mp4. -/
def isPreferred (f : MediaFormat) : Bool :=
  !(f.acodec == some "none" && f.vcodec != some "none") && f.ext == some "mp4"

/-- Python `res in f.get('format_note', '')`. -/
def noteContains (f : MediaFormat) (res : String) : Bool :=
  hasSub (f.format_note.getD "") res

/-- The priority list of resolution substrings scanned by `select_best_format`. -/
def RESOLUTION_ORDER : List String := ["1080", "720", "480", "360"]

/-- The nested loop of `select_best_format`: first resolution in priority order
for which some preferred format has it in its note wins. -/
def scanResolutions : List String → List MediaFormat → Option String
  | [], _ => none
  | r :: rs, preferred =>
    match preferred.find? (fun f => noteContains f r) with
    | some f => some f.format_id
    | none => scanResolutions rs preferred

/-- `VideoProcessor.select_best_format` (bot.py lines 65-82). -/
def select_best_format (formats : List MediaFormat) : String :=
  let preferred := formats.filter isPreferred
  if preferred.isEmpty then "best"
  else (scanResolutions RESOLUTION_ORDER preferred).getD "best"

/-! ## present_quality_options -/

/-- The size filter of `present_quality_options`: a format is skipped when its
filesize is absent, falsy (0) or above 500 MiB. -/
def sizeUsable (f : MediaFormat) : Bool :=
  match f.filesize with
  | none => false
  | some n => decide (0 < n) && decide (n ≤ PRESENT_SIZE_LIMIT)

/-- Classified as video: `f.get('vcodec') != 'none'`. -/
def isVideoFormat (f : MediaFormat) : Bool := f.vcodec != some "none"

/-- Classified as audio: not video and `f.get('acodec') != 'none'`. -/
def isAudioFormat (f : MediaFormat) : Bool :=
  f.vcodec == some "none" && f.acodec != some "none"

/-- Button label for a video format: `f.get('format_note', f.get('height', '?'))`. -/
def videoLabel (f : MediaFormat) : String :=
  match f.format_note with
  | some s => s
  | none => match f.height with | some h => toString h | none => "?"

/-- Button label for an audio format: `f.get('abr', '?') or f.get('tbr', '?')`. -/
def audioLabel (f : MediaFormat) : String :=
  match f.abr with
  | some a =>
    if a != 0 then toString a
    else match f.tbr with | some t => toString t | none => "?"
  | none => "?"

/-- One inline keyboard button of the quality prompt. -/
inductive Button
  | video (label : String) (format_id : String)
  | audio (label : String) (format_id : String)
  | auto
deriving DecidableEq, Repr

/-- The button list built by `present_quality_options` (bot.py lines 180-213):
size-filtered formats, first 4 video then first 2 audio, then the synthetic
automatic button. -/
def present_quality_options (formats : List MediaFormat) : List Button :=
  let usable := formats.filter sizeUsable
  let video_formats := usable.filter isVideoFormat
  let audio_formats := usable.filter isAudioFormat
  (video_formats.take 4).map (fun f => Button.video (videoLabel f) f.format_id)
    ++ (audio_formats.take 2).map (fun f => Button.audio (audioLabel f) f.format_id)
    ++ [Button.auto]

/-- Video-kind buttons of a button list. -/
def videoButtons (bs : List Button) : List Button :=
  bs.filter fun b => match b with | Button.video _ _ => true | _ => false

/-- Audio-kind buttons of a button list. -/
def audioButtons (bs : List Button) : List Button :=
  bs.filter fun b => match b with | Button.audio _ _ => true | _ => false

/-- Label carried by a button (empty for the auto button). -/
def buttonLabel : Button → String
  | Button.video l _ => l
  | Button.audio l _ => l
  | Button.auto => ""

/-! ## Observable actions, errors and filesystem state -/

/-- Failure kinds arising in the pipeline. `keyError` is the KeyError raised
when `video_info` is looked up in the user_data of a freshly built
Application. -/
inductive Err
  | keyError
  | fetch
  | split
  | send
deriving DecidableEq, Repr

/-- The chat messages bot.py can produce (text contents abstracted to tags). -/
inductive Msg
  | invalidUrl
  | tooLong
  | longWarn
  | autoSelecting
  | timedOut
  | downloading
  | splitting
  | allSent
  | dlFailed (e : Err)
  | couldNotDownload
deriving DecidableEq, Repr

/-- Caption of an outgoing video send. -/
inductive Caption
  | single (title : String)
  | part (title : String) (index total : Nat)
deriving DecidableEq, Repr

/-- Externally observable actions of the handlers and the pipeline. -/
inductive Act
  | reply (m : Msg)
  | replyButtons (bs : List Button)
  | editMsg (message_id : Nat) (m : Msg)
  | botSend (m : Msg)
  | chatAction
  | sendVideo (c : Caption)
  | startDownload (format_id : String)
  | ffmpegSplit
deriving DecidableEq, Repr

/-- Temporary filesystem artifacts of one pipeline run: the downloaded file
and the chunk directory (absent, or present with its file names). -/
structure FS where
  origFile : Bool
  chunkDirFiles : Option (List String)
deriving DecidableEq, Repr

/-- The state with no temporary artifacts. -/
def FS.clean : FS := ⟨false, none⟩

/-- The `finally` block of `process_download`: remove the downloaded file if
it exists. -/
def cleanupFilepath (fs : FS) : FS :=
  if fs.origFile then { fs with origFile := false } else fs

/-- The `finally` block of `split_and_send_video`: remove every file of the
chunk directory and the directory itself, if it exists. -/
def cleanupChunks (fs : FS) : FS :=
  match fs.chunkDirFiles with
  | none => fs
  | some _ => { fs with chunkDirFiles := none }

/-- Outcomes of the external collaborators for one pipeline run: the yt-dlp
fetch (failure, or success with the byte size of the produced file), the
ffmpeg segmentation (the files it leaves in the chunk directory and whether
it succeeded), and the Telegram sends. -/
structure Env where
  fetchResult : Except Err Nat
  splitFiles : List String
  splitOk : Bool
  sendSingleOk : Bool
  sendPartOk : Nat → Bool

/-! ## The pipeline: process_download / send_single_video / split_and_send_video -/

/-- Resolution of the format argument inside `process_download` (line 281). -/
def resolveFid (format_id : String) (vi : VideoInfo) : String :=
  if format_id != "auto" then format_id else vi.best_format

/-- `send_single_video` under `process_download`'s exception handler: one chat
action and one video send; a send failure surfaces as the generic failure
message. -/
def singleDelivery (env : Env) (title : String) : List Act :=
  [Act.chatAction, Act.sendVideo (Caption.single title)]
    ++ (if env.sendSingleOk then [] else [Act.botSend (Msg.dlFailed Err.send)])

/-- The send loop of `split_and_send_video` (lines 330-339): enumerate the
sorted chunks from 1; each attempt is a chat action plus a video send; the
first failing send raises, aborting the loop. -/
def sendChunks (sendPartOk : Nat → Bool) (title : String) (total : Nat) :
    Nat → List String → List Act × Option Err
  | _, [] => ([], none)
  | i, _ :: rest =>
    if sendPartOk i then
      let r := sendChunks sendPartOk title total (i + 1) rest
      (Act.chatAction :: Act.sendVideo (Caption.part title i total) :: r.1, r.2)
    else
      ([Act.chatAction, Act.sendVideo (Caption.part title i total)], some Err.send)

/-- `split_and_send_video` (bot.py lines 311-347): announce splitting, create
the chunk directory, run ffmpeg, send the sorted `part_` files in order; the
`finally` block removes the chunk directory on every exit path. Returns the
actions, the filesystem state and the escaping exception, if any. -/
def split_and_send_video (env : Env) (title : String) (_duration : Nat) (fs : FS) :
    List Act × FS × Option Err :=
  let fsDir : FS := { fs with chunkDirFiles := some env.splitFiles }
  if env.splitOk then
    let chunks := pySorted (env.splitFiles.filter (fun f => pyStartsWith f "part_"))
    let sent := sendChunks env.sendPartOk title chunks.length 1 chunks
    (Act.botSend Msg.splitting :: Act.ffmpegSplit :: sent.1
        ++ (if sent.2.isNone then [Act.botSend Msg.allSent] else []),
      cleanupChunks fsDir, sent.2)
  else
    ([Act.botSend Msg.splitting, Act.ffmpegSplit], cleanupChunks fsDir, some Err.split)

/-- `process_download` given the `video_info` found in the consulted
user_data store (bot.py lines 271-296): look up the session, fetch, branch on
the 50 MiB ceiling, and run the unconditional `finally` cleanup. A missing
`video_info` raises KeyError, caught by the generic handler. -/
def process_download (store : Option VideoInfo) (format_id : String) (env : Env) :
    List Act × FS :=
  match store with
  | none =>
    ([Act.botSend (Msg.dlFailed Err.keyError)], FS.clean)
  | some video_info =>
    match env.fetchResult with
    | Except.error e =>
      ([Act.startDownload (resolveFid format_id video_info),
        Act.botSend (Msg.dlFailed e)], FS.clean)
    | Except.ok file_size =>
      if file_size ≤ MAX_FILE_SIZE then
        (Act.startDownload (resolveFid format_id video_info)
            :: singleDelivery env video_info.title,
          cleanupFilepath ⟨true, none⟩)
      else
        let r := split_and_send_video env video_info.title video_info.duration ⟨true, none⟩
        (Act.startDownload (resolveFid format_id video_info) :: r.1
            ++ (match r.2.2 with | none => [] | some e => [Act.botSend (Msg.dlFailed e)]),
          cleanupFilepath r.2.1)

/-- The user_data store of the Application freshly built inside
`process_download` (line 274): it contains no entry for any user. -/
def freshApplicationUserData (_user_id : Nat) : Option VideoInfo := none

/-- `process_download` as actually wired in bot.py: it consults the fresh
Application's user_data, not the handler application's. -/
def process_download_code (_chat_id user_id : Nat) (format_id : String) (env : Env) :
    List Act × FS :=
  process_download (freshApplicationUserData user_id) format_id env

/-! ## handle_url -/

/-- Outcome of the normalisation/validation prefix of `handle_url`
(lines 116-133). -/
inductive NormalizeResult
  | invalid
  | indexError
  | proceed (url : String)
deriving DecidableEq, Repr

/-- The x.com rewrite (lines 127-129). -/
def rewriteX (u : String) : String :=
  if hasSub u "x.com" then pyReplace u "x.com" "twitter.com" else u

/-- The normalisation/validation prefix of `handle_url`: strip, Instagram
rewrite (tracking-parameter strip then ddinstagram substitution, with an
uncaught IndexError when the split yields a single piece), x.com rewrite,
then the scheme check. -/
def handle_url_normalize (text : String) : NormalizeResult :=
  let url := pyStrip text
  let step : Option String :=
    if hasSub url "instagram.com" then
      let url2 := if hasSub url "?" then (pySplit url "?").headD "" else url
      match (pySplit url2 "instagram.com/")[1]? with
      | none => none
      | some rest => some ("https://ddinstagram.com/" ++ rest)
    else
      some url
  match step with
  | none => NormalizeResult.indexError
  | some u =>
    let u2 := rewriteX u
    if pyStartsWith u2 "http://" || pyStartsWith u2 "https://" then
      NormalizeResult.proceed u2
    else
      NormalizeResult.invalid

/-- The `video_info` dict built by `handle_url` (lines 161-167). -/
def mkVideoInfo (url : String) (info : ExtractInfo) : VideoInfo :=
  { url := url
    title := String.mk (info.title.toList.take 100)
    duration := info.duration
    formats := info.formats
    best_format := select_best_format info.formats }

/-- The tail of `handle_url` after a successful extraction (lines 151-170):
duration policy, session store write, quality prompt and auto-select job
scheduling. Returns the actions, the store and the scheduled job ids. -/
def handle_url_after (url : String) (info : ExtractInfo) (store : Option VideoInfo)
    (job_message_id : Nat) : List Act × Option VideoInfo × List Nat :=
  if info.duration > VERY_LONG_DURATION then
    ([Act.reply Msg.tooLong], store, [])
  else
    (if info.duration > LONG_VIDEO_DURATION then [Act.reply Msg.longWarn] else [])
      ++ [Act.replyButtons (present_quality_options info.formats)]
      |> fun acts => (acts, some (mkVideoInfo url info), [job_message_id])

/-- All of `handle_url` (lines 116-177), with the extraction collaborator as
an oracle returning the extracted info or a failure, including the
ddinstagram-to-instagram fallback retry. -/
def handle_url_model (text : String) (store : Option VideoInfo)
    (resolver : String → Option ExtractInfo) (job_message_id : Nat) :
    List Act × Option VideoInfo × List Nat :=
  match handle_url_normalize text with
  | NormalizeResult.invalid => ([Act.reply Msg.invalidUrl], store, [])
  | NormalizeResult.indexError => ([], store, [])
  | NormalizeResult.proceed url =>
    match resolver url with
    | some info => handle_url_after url info store job_message_id
    | none =>
      if hasSub url "ddinstagram.com" then
        let original := pyReplace url "ddinstagram.com" "instagram.com"
        match resolver original with
        | some info => handle_url_after original info store job_message_id
        | none => ([Act.reply Msg.couldNotDownload], store, [])
      else
        ([Act.reply Msg.couldNotDownload], store, [])

/-! ## Handler-level event machine (selection race) -/

/-- Per-user handler state: the handler application's `user_data` entry, the
pending auto-select jobs (by the message id stored in their job data), and
the log of observable actions. -/
structure BotState where
  store : Option VideoInfo
  jobs : List Nat
  acts : List Act
deriving DecidableEq, Repr

/-- Events that can reach one user's session: a URL submission that passed
validation and extraction, a quality-callback click, the firing of a
scheduled auto-select job. -/
inductive Ev
  | submitUrl (vi : VideoInfo) (message_id : Nat)
  | pick (message_id : Nat) (data : String)
  | jobFire (message_id : Nat)
deriving DecidableEq, Repr

/-- One handler step.

`submitUrl` models lines 160-170 and 216-227: the store is overwritten, the
quality prompt is shown and a 30-second job is scheduled; no earlier job is
cancelled. `pick` models `quality_callback` (lines 253-268): resolve
`"auto"` against the handler store's best_format, edit the prompt and call
`process_download` (whose fresh-Application store is empty); the pending job
is not cancelled and no resolution state is recorded. `jobFire` models the
JobQueue firing `auto_select_quality` (lines 230-250): it runs whenever the
job is still scheduled, with no check of user choice or session identity. -/
def stepEv (env : Env) : BotState → Ev → BotState
  | st, Ev.submitUrl vi mid =>
    { store := some vi
      jobs := st.jobs ++ [mid]
      acts := st.acts ++ [Act.replyButtons (present_quality_options vi.formats)] }
  | st, Ev.pick mid data =>
    match (if data == "auto" then st.store.map (fun vi => vi.best_format) else some data) with
    | none => st
    | some fid =>
      let r := process_download_code 0 0 fid env
      { st with acts := st.acts ++ (Act.editMsg mid Msg.downloading :: r.1) }
  | st, Ev.jobFire mid =>
    if st.jobs.contains mid then
      let r := process_download_code 0 0 "auto" env
      { store := st.store
        jobs := st.jobs.erase mid
        acts := st.acts ++ (Act.editMsg mid Msg.autoSelecting :: r.1) }
    else st

/-- Run a sequence of events from the empty state. -/
def runEv (env : Env) (evs : List Ev) : BotState :=
  evs.foldl (stepEv env) ⟨none, [], []⟩

/-! ## Observation helpers -/

/-- Index of a part send, if the action is one. -/
def partIndexOf : Act → Option Nat
  | Act.sendVideo (Caption.part _ i _) => some i
  | _ => none

/-- Indices of the part sends occurring in an action list, in order. -/
def partIndices (acts : List Act) : List Nat :=
  acts.filterMap partIndexOf

/-- Whether an action is a single-video send. -/
def isSingleSend : Act → Bool
  | Act.sendVideo (Caption.single _) => true
  | _ => false

/-- Number of single-video sends in an action list. -/
def singleSendCount (acts : List Act) : Nat :=
  (acts.filter isSingleSend).length

/-- Number of selection-trigger firings visible in an action list: each
trigger (explicit pick or auto-select job) edits the prompt exactly once
before invoking the pipeline. -/
def triggerCount (acts : List Act) : Nat :=
  (acts.filter fun a => match a with
    | Act.editMsg _ _ => true
    | _ => false).length

/-- Number of `part_` files a run's ffmpeg call produced. -/
def numParts (env : Env) : Nat :=
  (env.splitFiles.filter (fun f => pyStartsWith f "part_")).length

/-! ## Concrete fixtures for witnesses and counterexamples -/

/-- The 720p mp4 candidate of the spec's end-to-end example. -/
def fmt720 : MediaFormat :=
  { format_id := "22", ext := some "mp4", acodec := some "mp4a.40.2",
    vcodec := some "avc1.64001F", format_note := some "720p",
    filesize := some 10485760 }

/-- The 480p mp4 candidate of the spec's end-to-end example. -/
def fmt480 : MediaFormat :=
  { format_id := "35", ext := some "mp4", acodec := some "mp4a.40.2",
    vcodec := some "avc1.4d401e", format_note := some "480p",
    filesize := some 6291456 }

/-- The 360p mp4 candidate of the spec's end-to-end example. -/
def fmt360 : MediaFormat :=
  { format_id := "18", ext := some "mp4", acodec := some "mp4a.40.2",
    vcodec := some "avc1.42001E", format_note := some "360p",
    filesize := some 3145728 }

/-- Three mp4 video candidates labeled 720p/480p/360p, all with audio. -/
def exampleFormats : List MediaFormat := [fmt720, fmt480, fmt360]

/-- A non-mp4 candidate; not preferred by `select_best_format`. -/
def fmtWebm : MediaFormat :=
  { format_id := "w1", ext := some "webm", acodec := some "opus",
    vcodec := some "vp9", format_note := some "720p",
    filesize := some 10485760 }

/-- First of two video candidates sharing the label 720p. -/
def dupA : MediaFormat :=
  { format_id := "a", ext := some "mp4", acodec := some "mp4a",
    vcodec := some "avc1", format_note := some "720p",
    filesize := some 1000000 }

/-- Second of two video candidates sharing the label 720p. -/
def dupB : MediaFormat :=
  { format_id := "b", ext := some "mp4", acodec := some "mp4a",
    vcodec := some "avc1", format_note := some "720p",
    filesize := some 900000 }

/-- A stored session for the event-machine scenarios. -/
def vi0 : VideoInfo :=
  { url := "https://youtu.be/abc", title := "t", duration := 60,
    formats := exampleFormats, best_format := "22" }

/-- First session of the supersession scenario. -/
def viA : VideoInfo :=
  { url := "https://youtu.be/first", title := "a", duration := 60,
    formats := exampleFormats, best_format := "22" }

/-- Second session of the supersession scenario. -/
def viB : VideoInfo :=
  { url := "https://youtu.be/second", title := "b", duration := 60,
    formats := exampleFormats, best_format := "22" }

/-- An environment whose fetch fails (its pipeline details are irrelevant to
the event-machine scenarios, where the fresh-store lookup fails first). -/
def env0 : Env :=
  { fetchResult := Except.error Err.fetch, splitFiles := [], splitOk := true,
    sendSingleOk := true, sendPartOk := fun _ => true }

/-- Environment of a small (under-ceiling) successful download. -/
def envSmall : Env :=
  { fetchResult := Except.ok 1048576, splitFiles := [], splitOk := true,
    sendSingleOk := true, sendPartOk := fun _ => true }

/-- Environment of an oversized download split into two parts, all sends
succeeding. -/
def envBig : Env :=
  { fetchResult := Except.ok (MAX_FILE_SIZE + 1),
    splitFiles := ["part_001.mp4", "part_000.mp4"], splitOk := true,
    sendSingleOk := true, sendPartOk := fun _ => true }

/-- Environment of an oversized download split into four parts where the send
of part 3 fails. -/
def envFail3 : Env :=
  { fetchResult := Except.ok (MAX_FILE_SIZE + 1),
    splitFiles := ["part_000.mp4", "part_001.mp4", "part_002.mp4", "part_003.mp4"],
    splitOk := true, sendSingleOk := true, sendPartOk := fun i => decide (i ≤ 2) }

/-- Environment of an oversized download split into four parts where the send
of part 2 fails. -/
def envFail2 : Env :=
  { fetchResult := Except.ok (MAX_FILE_SIZE + 1),
    splitFiles := ["part_000.mp4", "part_001.mp4", "part_002.mp4", "part_003.mp4"],
    splitOk := true, sendSingleOk := true, sendPartOk := fun i => decide (i ≤ 1) }

/-- State after a URL submission followed by an explicit quality pick. -/
def c1state1 : BotState := runEv env0 [Ev.submitUrl vi0 7, Ev.pick 7 "22"]

/-- State after the still-pending auto-select job fires on top of `c1state1`. -/
def c1state2 : BotState := stepEv env0 c1state1 (Ev.jobFire 7)

/-- State after two URL submissions (the second supersedes the first, whose
job is still pending). -/
def c5state : BotState := runEv env0 [Ev.submitUrl viA 1, Ev.submitUrl viB 2]

/-- Resolver fixture for the C6 counterexample: extraction succeeds exactly
for the rewritten ddinstagram URL. -/
def resolver6 : String → Option ExtractInfo :=
  fun u => if u == "https://ddinstagram.com/p/abc"
    then some ⟨60, "t", exampleFormats⟩ else none


/-! ## Helper lemmas -/

/-- The chunk-directory cleanup of `split_and_send_video` runs on every exit
path: the resulting filesystem state never has a chunk directory, and the
downloaded file is untouched by this function. -/
lemma split_and_send_fs (env : Env) (title : String) (dur : Nat) :
    (split_and_send_video env title dur ⟨true, none⟩).2.1 = ⟨true, none⟩ := by
  unfold split_and_send_video
  cases h : env.splitOk <;> simp [h, cleanupChunks]

/-- Cleanup is unconditional in `process_download`: every exit path ends with
no temporary artifacts. -/
lemma process_download_fs (store : Option VideoInfo) (format_id : String) (env : Env) :
    (process_download store format_id env).2 = FS.clean := by
  unfold process_download
  cases store with
  | none => rfl
  | some vi =>
    cases hE : env.fetchResult with
    | error e => simp
    | ok n =>
      simp only []
      by_cases hle : n ≤ MAX_FILE_SIZE
      · simp [hle, cleanupFilepath, FS.clean]
      · simp [hle, split_and_send_fs, cleanupFilepath, FS.clean]


/-- If no preferred format's note contains any scanned resolution, the scan
finds nothing. -/
lemma scanResolutions_eq_none (rs : List String) (pref : List MediaFormat)
    (h : ∀ r ∈ rs, ∀ f ∈ pref, noteContains f r = false) :
    scanResolutions rs pref = none := by
  induction rs with
  | nil => rfl
  | cons r rs ih =>
    have hfind : pref.find? (fun f => noteContains f r) = none := by
      rw [List.find?_eq_none]
      intro f hf
      simp [h r (by simp) f hf]
    simp only [scanResolutions, hfind]
    exact ih (fun r2 hr2 f hf => h r2 (by simp [hr2]) f hf)

/-- A successful scan returns the format id of some preferred format. -/
lemma scanResolutions_mem (rs : List String) (pref : List MediaFormat) (s : String)
    (h : scanResolutions rs pref = some s) :
    ∃ f ∈ pref, s = f.format_id := by
  induction rs with
  | nil => simp [scanResolutions] at h
  | cons r rs ih =>
    unfold scanResolutions at h
    cases hfind : List.find? (fun f => noteContains f r) pref with
    | some f =>
      rw [hfind] at h
      exact ⟨f, List.mem_of_find?_eq_some hfind, (Option.some.inj h).symm⟩
    | none =>
      rw [hfind] at h
      exact ih h

/-- A preferred format matching the first scanned resolution wins the scan. -/
lemma select_best_first_match (formats : List MediaFormat) (f : MediaFormat)
    (hfind : (formats.filter isPreferred).find? (fun g => noteContains g "1080") = some f) :
    select_best_format formats = f.format_id := by
  have hne : (formats.filter isPreferred).isEmpty = false := by
    cases hem : (formats.filter isPreferred).isEmpty with
    | false => rfl
    | true =>
      rw [List.isEmpty_iff.mp hem] at hfind
      cases hfind
  unfold select_best_format RESOLUTION_ORDER
  simp only [hne, Bool.false_eq_true, if_false, scanResolutions, hfind, Option.getD_some]

/-- With no 1080 match, a preferred format matching 720 wins the scan. -/
lemma select_best_second_match (formats : List MediaFormat) (f : MediaFormat)
    (hnone : (formats.filter isPreferred).find? (fun g => noteContains g "1080") = none)
    (hfind : (formats.filter isPreferred).find? (fun g => noteContains g "720") = some f) :
    select_best_format formats = f.format_id := by
  have hne : (formats.filter isPreferred).isEmpty = false := by
    cases hem : (formats.filter isPreferred).isEmpty with
    | false => rfl
    | true =>
      rw [List.isEmpty_iff.mp hem] at hfind
      cases hfind
  unfold select_best_format RESOLUTION_ORDER
  simp only [hne, Bool.false_eq_true, if_false, scanResolutions, hnone, hfind,
    Option.getD_some]

/-- Claim C4: the automatic-best pick prefers the mp4 container (any non-best
result is the id of an mp4 candidate of the input), falls back to the default
identifier best when no preferred-container candidate exists or when no
preferred candidate matches a scanned resolution, scans the resolution labels
in descending priority order (a 1080 match wins outright; with no 1080 match
a 720 match wins), and on the three-candidate 720p/480p/360p mp4 example it
picks the 720p id. -/
theorem C4_automatic_best :
    select_best_format exampleFormats = "22" ∧
    (∀ formats : List MediaFormat, formats.filter isPreferred = [] →
      select_best_format formats = "best") ∧
    (∀ formats : List MediaFormat,
      (∀ f ∈ formats.filter isPreferred, ∀ r ∈ RESOLUTION_ORDER, noteContains f r = false) →
      select_best_format formats = "best") ∧
    (∀ formats : List MediaFormat, select_best_format formats ≠ "best" →
      ∃ f ∈ formats, f.ext = some "mp4" ∧ select_best_format formats = f.format_id) ∧
    (∀ (formats : List MediaFormat) (f : MediaFormat),
      (formats.filter isPreferred).find? (fun g => noteContains g "1080") = some f →
      select_best_format formats = f.format_id) ∧
    (∀ (formats : List MediaFormat) (f : MediaFormat),
      (formats.filter isPreferred).find? (fun g => noteContains g "1080") = none →
      (formats.filter isPreferred).find? (fun g => noteContains g "720") = some f →
      select_best_format formats = f.format_id) := by
  refine ⟨by decide, ?_, ?_, ?_, select_best_first_match, select_best_second_match⟩
  · intro formats h
    simp [select_best_format, h]
  · intro formats h
    unfold select_best_format
    cases he : (formats.filter isPreferred).isEmpty with
    | true => simp [he]
    | false =>
      simp only [he, Bool.false_eq_true, if_false]
      rw [scanResolutions_eq_none _ _ (fun r hr f hf => h f hf r hr)]
      rfl
  · intro formats h
    unfold select_best_format at h ⊢
    cases he : (formats.filter isPreferred).isEmpty with
    | true => simp [he] at h
    | false =>
      simp only [he, Bool.false_eq_true, if_false] at h ⊢
      cases hscan : scanResolutions RESOLUTION_ORDER (formats.filter isPreferred) with
      | none => rw [hscan] at h; simp at h
      | some s =>
        obtain ⟨f, hf, hs⟩ := scanResolutions_mem _ _ _ hscan
        have hmem := List.mem_filter.mp hf
        refine ⟨f, hmem.1, ?_, ?_⟩
        · have hp := hmem.2
          unfold isPreferred at hp
          have hext := (Bool.and_eq_true _ _).mp hp |>.2
          simpa using hext
        · simpa using hs

/-- Witness for C4: a catalog with no mp4 candidate falls back to best. -/
theorem C4_witness : select_best_format [fmtWebm] = "best" :=
  C4_automatic_best.2.1 [fmtWebm] (by decide)


/-- Filtering a mapped list by a predicate that holds on every image keeps it. -/
lemma filter_map_all {A B : Type} (p : B → Bool) (g : A → B) (l : List A)
    (h : ∀ a, p (g a) = true) : (l.map g).filter p = l.map g := by
  induction l with
  | nil => rfl
  | cons a l ih => simp [h a, ih]

/-- Filtering a mapped list by a predicate false on every image empties it. -/
lemma filter_map_none {A B : Type} (p : B → Bool) (g : A → B) (l : List A)
    (h : ∀ a, p (g a) = false) : (l.map g).filter p = [] := by
  induction l with
  | nil => rfl
  | cons a l ih => simp [h a, ih]

/-- The video buttons of the presented list are exactly the mapped first four
usable video formats. -/
lemma videoButtons_present (formats : List MediaFormat) :
    videoButtons (present_quality_options formats)
      = (((formats.filter sizeUsable).filter isVideoFormat).take 4).map
          (fun f => Button.video (videoLabel f) f.format_id) := by
  unfold present_quality_options videoButtons
  rw [List.filter_append, List.filter_append,
    filter_map_all _ _ _ (fun a => rfl), filter_map_none _ _ _ (fun a => rfl)]
  simp

/-- The audio buttons of the presented list are exactly the mapped first two
usable audio formats. -/
lemma audioButtons_present (formats : List MediaFormat) :
    audioButtons (present_quality_options formats)
      = (((formats.filter sizeUsable).filter isAudioFormat).take 2).map
          (fun f => Button.audio (audioLabel f) f.format_id) := by
  unfold present_quality_options audioButtons
  rw [List.filter_append, List.filter_append,
    filter_map_none _ _ _ (fun a => rfl), filter_map_all _ _ _ (fun a => rfl)]
  simp

/-- A format whose video button is presented comes from the catalog and
passes the size filter. -/
lemma present_mem_video (formats : List MediaFormat) (lab fid : String)
    (hmem : Button.video lab fid ∈ present_quality_options formats) :
    ∃ f ∈ formats, f.format_id = fid ∧ sizeUsable f = true ∧
      isVideoFormat f = true ∧ videoLabel f = lab := by
  unfold present_quality_options at hmem
  simp only [List.mem_append, List.mem_map, List.mem_singleton] at hmem
  rcases hmem with ((⟨f, hf, heq⟩ | ⟨f, hf, heq⟩) | heq)
  · have h1 := List.take_subset 4 _ hf
    have h2 := List.mem_filter.mp h1
    have h3 := List.mem_filter.mp h2.1
    refine ⟨f, h3.1, ?_, h3.2, h2.2, ?_⟩
    · exact (Button.video.inj heq).2
    · exact (Button.video.inj heq).1
  · cases heq
  · cases heq

/-- A format whose audio button is presented comes from the catalog and
passes the size filter. -/
lemma present_mem_audio (formats : List MediaFormat) (lab fid : String)
    (hmem : Button.audio lab fid ∈ present_quality_options formats) :
    ∃ f ∈ formats, f.format_id = fid ∧ sizeUsable f = true ∧
      isAudioFormat f = true ∧ audioLabel f = lab := by
  unfold present_quality_options at hmem
  simp only [List.mem_append, List.mem_map, List.mem_singleton] at hmem
  rcases hmem with ((⟨f, hf, heq⟩ | ⟨f, hf, heq⟩) | heq)
  · cases heq
  · have h1 := List.take_subset 2 _ hf
    have h2 := List.mem_filter.mp h1
    have h3 := List.mem_filter.mp h2.1
    refine ⟨f, h3.1, ?_, h3.2, h2.2, ?_⟩
    · exact (Button.audio.inj heq).2
    · exact (Button.audio.inj heq).1
  · cases heq

/-- Claim C7 (amended: the source performs no deduplication by label): the
presented choice set has at most 4 video and at most 2 audio buttons, video
before audio, with exactly the synthetic automatic choice appended last, and
every presented candidate button comes from a catalog format with usable
size information within the ceiling. -/
theorem C7_presented_structure (formats : List MediaFormat) :
    (videoButtons (present_quality_options formats)).length ≤ 4 ∧
    (audioButtons (present_quality_options formats)).length ≤ 2 ∧
    present_quality_options formats
      = videoButtons (present_quality_options formats)
          ++ audioButtons (present_quality_options formats) ++ [Button.auto] ∧
    (∀ lab fid, Button.video lab fid ∈ present_quality_options formats →
      ∃ f ∈ formats, f.format_id = fid ∧ sizeUsable f = true ∧
        isVideoFormat f = true ∧ videoLabel f = lab) ∧
    (∀ lab fid, Button.audio lab fid ∈ present_quality_options formats →
      ∃ f ∈ formats, f.format_id = fid ∧ sizeUsable f = true ∧
        isAudioFormat f = true ∧ audioLabel f = lab) := by
  refine ⟨?_, ?_, ?_, present_mem_video formats, present_mem_audio formats⟩
  · rw [videoButtons_present]
    simp [List.length_take]
  · rw [audioButtons_present]
    simp [List.length_take]
  · rw [videoButtons_present, audioButtons_present]
    unfold present_quality_options
    simp

/-- Witness for C7: the 720p button of the example catalog traces back to its
720p mp4 candidate. -/
theorem C7_witness :
    ∃ f ∈ exampleFormats, f.format_id = "22" ∧ sizeUsable f = true ∧
      isVideoFormat f = true ∧ videoLabel f = "720p" :=
  (C7_presented_structure exampleFormats).2.2.2.1 "720p" "22" (by decide)

/-- Counterexample for C7: two video candidates sharing the label 720p are
both presented, so the choice set is not deduplicated by label. -/
theorem C7_counterexample :
    present_quality_options [dupA, dupB]
      = [Button.video "720p" "a", Button.video "720p" "b", Button.auto] ∧
    ¬ ((videoButtons (present_quality_options [dupA, dupB])).map buttonLabel).Nodup := by
  exact ⟨by decide, by decide⟩


/-- Stable insertion preserves length. -/
lemma insertSorted_length (x : String) (l : List String) :
    (insertSorted x l).length = l.length + 1 := by
  induction l with
  | nil => rfl
  | cons y ys ih =>
    unfold insertSorted
    cases leString x y <;> simp [ih]

/-- Sorting preserves length. -/
lemma pySorted_length (l : List String) : (pySorted l).length = l.length := by
  induction l with
  | nil => rfl
  | cons x xs ih => simp [pySorted, insertSorted_length, ih]

/-- When every part send succeeds, the send loop attempts consecutive indices
starting at its counter and raises nothing. -/
lemma sendChunks_all_ok (ok : Nat → Bool) (title : String) (total : Nat)
    (cs : List String) (i : Nat) (h : ∀ j, ok j = true) :
    partIndices (sendChunks ok title total i cs).1 = List.range' i cs.length ∧
    (sendChunks ok title total i cs).2 = none := by
  induction cs generalizing i with
  | nil => simp [sendChunks, partIndices]
  | cons c rest ih =>
    have hrec := ih (i + 1)
    simp only [sendChunks, h i, if_true]
    constructor
    · simp only [partIndices, List.filterMap_cons, partIndexOf] at hrec ⊢
      simp only [List.length_cons]
      rw [List.range'_succ]
      simpa using hrec.1
    · simpa using hrec.2

/-- The loop performs no single-video send on its result. -/
lemma sendChunks_no_single (ok : Nat → Bool) (title : String) (total : Nat)
    (cs : List String) (i : Nat) :
    (sendChunks ok title total i cs).1.filter isSingleSend = [] := by
  induction cs generalizing i with
  | nil => simp [sendChunks]
  | cons c rest ih =>
    cases hok : ok i with
    | true =>
      simp only [sendChunks, hok, if_true]
      simpa [isSingleSend, List.filter_cons] using ih (i + 1)
    | false => simp [sendChunks, hok, isSingleSend, List.filter_cons]

/-- If the send of part `k` fails and every earlier send succeeds, the loop
attempts exactly the indices up to `k` and raises the send error. -/
lemma sendChunks_fail (ok : Nat → Bool) (title : String) (total : Nat)
    (cs : List String) (i k : Nat)
    (hik : i ≤ k) (hk : k < i + cs.length)
    (hok : ∀ j, j < k → ok j = true) (hf : ok k = false) :
    partIndices (sendChunks ok title total i cs).1 = List.range' i (k + 1 - i) ∧
    (sendChunks ok title total i cs).2 = some Err.send := by
  induction cs generalizing i with
  | nil => simp at hk; omega
  | cons c rest ih =>
    by_cases hike : i = k
    · subst hike
      simp [sendChunks, hf, partIndices, partIndexOf, List.range'_succ]
    · have hi : i < k := lt_of_le_of_ne hik hike
      have hrec := ih (i + 1) hi (by simp at hk ⊢; omega)
      simp only [sendChunks, hok i hi, if_true]
      constructor
      · simp only [partIndices, List.filterMap_cons, partIndexOf] at hrec ⊢
        have harith : k + 1 - i = (k + 1 - (i + 1)) + 1 := by omega
        rw [harith, List.range'_succ]
        simpa using hrec.1
      · simpa using hrec.2


/-- Claim C2: on every terminal outcome of a pipeline run, no temporary
artifact remains: the downloaded file, every produced part file and the chunk
directory are gone. -/
theorem C2_cleanup (store : Option VideoInfo) (format_id : String) (env : Env) :
    (process_download store format_id env).2 = FS.clean :=
  process_download_fs store format_id env

/-- Claim C3: `process_download` consults the user_data of a freshly built
Application, which never contains the stored video_info; so for every chat
id, user id and format id the lookup fails, the generic handler sends the
failure message, and no download and no send is ever started. -/
theorem C3_fresh_store_lookup (chat_id user_id : Nat) (format_id : String) (env : Env) :
    process_download_code chat_id user_id format_id env
      = ([Act.botSend (Msg.dlFailed Err.keyError)], FS.clean) := rfl

/-- Claim C8: an artifact at most the 50 MiB ceiling is delivered by exactly
one single send with no split; an artifact above the ceiling is split, no
single send happens, and (with a successful split and sends) the parts are
delivered exactly in ascending 1-based index order 1..N. -/
theorem C8_size_branching (vi : VideoInfo) (format_id : String) (env : Env) (file_size : Nat)
    (hfetch : env.fetchResult = Except.ok file_size) :
    (file_size ≤ MAX_FILE_SIZE →
      singleSendCount (process_download (some vi) format_id env).1 = 1 ∧
      partIndices (process_download (some vi) format_id env).1 = [] ∧
      Act.ffmpegSplit ∉ (process_download (some vi) format_id env).1) ∧
    (MAX_FILE_SIZE < file_size →
      Act.ffmpegSplit ∈ (process_download (some vi) format_id env).1 ∧
      singleSendCount (process_download (some vi) format_id env).1 = 0 ∧
      (env.splitOk = true → (∀ i, env.sendPartOk i = true) →
        partIndices (process_download (some vi) format_id env).1
          = List.range' 1 (numParts env))) := by
  constructor
  · intro hle
    unfold process_download
    simp only [hfetch, if_pos hle]
    unfold singleDelivery
    cases hs : env.sendSingleOk <;>
      simp [singleSendCount, partIndices, partIndexOf, isSingleSend,
        List.filter_cons, List.filterMap_cons]
  · intro hbig
    unfold process_download
    simp only [hfetch, if_neg (Nat.not_le.mpr hbig)]
    cases hsp : env.splitOk with
    | false =>
      unfold split_and_send_video
      simp only [hsp, Bool.false_eq_true, if_false]
      refine ⟨by simp, ?_, fun hs => hs.elim⟩
      simp [singleSendCount, isSingleSend, List.filter_cons, List.filter_append]
    | true =>
      unfold split_and_send_video
      simp only [hsp, if_true]
      refine ⟨by simp, ?_, ?_⟩
      · simp only [singleSendCount, List.filter_cons, List.filter_append,
          isSingleSend, sendChunks_no_single]
        cases hsent : (sendChunks env.sendPartOk vi.title
            (pySorted (env.splitFiles.filter (fun f => pyStartsWith f "part_"))).length 1
            (pySorted (env.splitFiles.filter (fun f => pyStartsWith f "part_")))).2 <;>
          simp [hsent, sendChunks_no_single, isSingleSend, List.filter_cons]
      · intro _ hall
        have hchunks := sendChunks_all_ok env.sendPartOk vi.title
          (pySorted (env.splitFiles.filter (fun f => pyStartsWith f "part_"))).length
          (pySorted (env.splitFiles.filter (fun f => pyStartsWith f "part_"))) 1 hall
        simp only [partIndices] at hchunks
        simp only [hchunks.2, Option.isNone_none, if_true]
        simp only [partIndices, List.filterMap_cons, partIndexOf, List.filterMap_append,
          List.filterMap_nil]
        rw [hchunks.1]
        simp [numParts, pySorted_length]


/-- Witness for C8: a 1 MiB artifact is sent once with no split; a 50 MiB + 1
artifact is split into two parts delivered as 1, 2. -/
theorem C8_witness :
    (singleSendCount (process_download (some vi0) "22" envSmall).1 = 1 ∧
      partIndices (process_download (some vi0) "22" envSmall).1 = [] ∧
      Act.ffmpegSplit ∉ (process_download (some vi0) "22" envSmall).1) ∧
    (Act.ffmpegSplit ∈ (process_download (some vi0) "22" envBig).1 ∧
      singleSendCount (process_download (some vi0) "22" envBig).1 = 0 ∧
      partIndices (process_download (some vi0) "22" envBig).1
        = List.range' 1 (numParts envBig)) :=
  ⟨(C8_size_branching vi0 "22" envSmall 1048576 rfl).1 (by decide),
   by
    have h := (C8_size_branching vi0 "22" envBig (MAX_FILE_SIZE + 1) rfl).2
      (Nat.lt_succ_self _)
    exact ⟨h.1, h.2.1, h.2.2 rfl (fun i => rfl)⟩⟩

/-- Claim C9 (amended: the failure report is the generic download-failure
message and names no part count): when the send of part `k` of an N-part
split fails after successful earlier sends, the loop attempts exactly parts
1..k, cleanup of the part files, the chunk directory and the artifact still
runs, and the final user message is the generic failure message. -/
theorem C9_abort_and_cleanup (vi : VideoInfo) (format_id : String) (env : Env)
    (file_size k : Nat)
    (hfetch : env.fetchResult = Except.ok file_size)
    (hbig : MAX_FILE_SIZE < file_size)
    (hsplit : env.splitOk = true)
    (hk1 : 1 ≤ k) (hkN : k ≤ numParts env)
    (hok : ∀ j, j < k → env.sendPartOk j = true)
    (hfail : env.sendPartOk k = false) :
    partIndices (process_download (some vi) format_id env).1 = List.range' 1 k ∧
    (process_download (some vi) format_id env).2 = FS.clean ∧
    (process_download (some vi) format_id env).1.getLast?
      = some (Act.botSend (Msg.dlFailed Err.send)) := by
  have hN : (pySorted (env.splitFiles.filter (fun f => pyStartsWith f "part_"))).length
      = numParts env := by
    simp [numParts, pySorted_length]
  have hsent := sendChunks_fail env.sendPartOk vi.title
    (pySorted (env.splitFiles.filter (fun f => pyStartsWith f "part_"))).length
    (pySorted (env.splitFiles.filter (fun f => pyStartsWith f "part_"))) 1 k
    hk1 (by omega) hok hfail
  refine ⟨?_, process_download_fs _ _ _, ?_⟩
  · unfold process_download
    simp only [hfetch, if_neg (Nat.not_le.mpr hbig)]
    unfold split_and_send_video
    simp only [hsplit, if_true]
    simp only [partIndices] at hsent
    simp only [hsent.2, Option.isNone_some, Bool.false_eq_true, if_false]
    simp only [partIndices, List.filterMap_cons, partIndexOf, List.filterMap_append,
      List.filterMap_nil]
    rw [hsent.1]
    simp
  · unfold process_download
    simp only [hfetch, if_neg (Nat.not_le.mpr hbig)]
    unfold split_and_send_video
    simp only [hsplit, if_true]
    simp only [hsent.2, Option.isNone_some, Bool.false_eq_true, if_false]
    rw [List.append_nil]
    exact List.getLast?_concat _

/-- Witness for C9: with four parts and part 3's send failing, parts 1..3 are
attempted, everything is cleaned up, and the final message is the generic
failure message. -/
theorem C9_witness :
    partIndices (process_download (some vi0) "22" envFail3).1 = List.range' 1 3 ∧
    (process_download (some vi0) "22" envFail3).2 = FS.clean ∧
    (process_download (some vi0) "22" envFail3).1.getLast?
      = some (Act.botSend (Msg.dlFailed Err.send)) :=
  C9_abort_and_cleanup vi0 "22" envFail3 (MAX_FILE_SIZE + 1) 3 rfl
    (Nat.lt_succ_self _) rfl (by decide) (by decide)
    (fun j hj => by
      show decide (j ≤ 2) = true
      simp only [decide_eq_true_eq]
      omega)
    (by decide)

/-- Counterexample for C9: the terminal user message after part 3's send
fails is identical to the one after part 2's send fails, so the report does
not name the last successful part index. -/
theorem C9_counterexample :
    (process_download (some vi0) "22" envFail3).1.getLast?
      = (process_download (some vi0) "22" envFail2).1.getLast? ∧
    (process_download (some vi0) "22" envFail3).1.getLast?
      = some (Act.botSend (Msg.dlFailed Err.send)) ∧
    partIndices (process_download (some vi0) "22" envFail3).1 = [1, 2, 3] ∧
    partIndices (process_download (some vi0) "22" envFail2).1 = [1, 2] := by
  exact ⟨by decide, by decide, by decide, by decide⟩


/-- Claim C10: a resolved duration above 7200 s is rejected before any
candidate is presented and no session is stored; above 1800 s but at most
7200 s the advisory is sent and presentation proceeds; at most 1800 s
presentation proceeds with no advisory. -/
theorem C10_duration_policy (url : String) (info : ExtractInfo)
    (store : Option VideoInfo) (mid : Nat) :
    (VERY_LONG_DURATION < info.duration →
      handle_url_after url info store mid = ([Act.reply Msg.tooLong], store, [])) ∧
    (LONG_VIDEO_DURATION < info.duration → info.duration ≤ VERY_LONG_DURATION →
      handle_url_after url info store mid
        = ([Act.reply Msg.longWarn, Act.replyButtons (present_quality_options info.formats)],
            some (mkVideoInfo url info), [mid])) ∧
    (info.duration ≤ LONG_VIDEO_DURATION →
      handle_url_after url info store mid
        = ([Act.replyButtons (present_quality_options info.formats)],
            some (mkVideoInfo url info), [mid])) := by
  refine ⟨?_, ?_, ?_⟩
  · intro h
    unfold handle_url_after
    rw [if_pos h]
  · intro h1 h2
    unfold handle_url_after
    rw [if_neg (by omega), if_pos h1]
    rfl
  · intro h
    unfold handle_url_after
    rw [if_neg (by unfold LONG_VIDEO_DURATION VERY_LONG_DURATION at *; omega),
      if_neg (by omega)]
    rfl

/-- Witness for C10: durations 7201, 1801 and 1799 land in the three bands. -/
theorem C10_witness :
    handle_url_after "u" ⟨7201, "t", exampleFormats⟩ none 1
      = ([Act.reply Msg.tooLong], none, []) ∧
    handle_url_after "u" ⟨1801, "t", exampleFormats⟩ none 1
      = ([Act.reply Msg.longWarn, Act.replyButtons (present_quality_options exampleFormats)],
          some (mkVideoInfo "u" ⟨1801, "t", exampleFormats⟩), [1]) ∧
    handle_url_after "u" ⟨1799, "t", exampleFormats⟩ none 1
      = ([Act.replyButtons (present_quality_options exampleFormats)],
          some (mkVideoInfo "u" ⟨1799, "t", exampleFormats⟩), [1]) :=
  ⟨(C10_duration_policy "u" ⟨7201, "t", exampleFormats⟩ none 1).1 (by decide),
   (C10_duration_policy "u" ⟨1801, "t", exampleFormats⟩ none 1).2.1 (by decide) (by decide),
   (C10_duration_policy "u" ⟨1799, "t", exampleFormats⟩ none 1).2.2 (by decide)⟩

/-- Claim C6 (amended: inputs containing the instagram.com token are exempt,
see the counterexample): any submitted text whose trimmed form does not
contain instagram.com and which, after the x.com rewrite, does not begin with
http:// or https://, is rejected with the invalid-input message and creates
no session state and no job. -/
theorem C6_scheme_validation (text : String) (store : Option VideoInfo)
    (resolver : String → Option ExtractInfo) (mid : Nat)
    (h1 : hasSub (pyStrip text) "instagram.com" = false)
    (h2 : pyStartsWith (rewriteX (pyStrip text)) "http://" = false)
    (h3 : pyStartsWith (rewriteX (pyStrip text)) "https://" = false) :
    handle_url_model text store resolver mid
      = ([Act.reply Msg.invalidUrl], store, []) := by
  unfold handle_url_model handle_url_normalize
  simp [h1, h2, h3]

/-- Witness for C6: a scheme-less x.com link is rejected (the x.com to
twitter.com rewrite does not create a scheme). -/
theorem C6_witness :
    handle_url_model "x.com/u/status/9" none (fun _ => none) 3
      = ([Act.reply Msg.invalidUrl], none, []) :=
  C6_scheme_validation "x.com/u/status/9" none (fun _ => none) 3
    (by decide) (by decide) (by decide)

/-- Counterexample for C6: the scheme-less input instagram.com/p/abc is not
rejected; the Instagram rewrite runs before the scheme check, turns it into
https://ddinstagram.com/p/abc, and a session is created when extraction
succeeds. -/
theorem C6_counterexample :
    pyStartsWith (pyStrip "instagram.com/p/abc") "http://" = false ∧
    pyStartsWith (pyStrip "instagram.com/p/abc") "https://" = false ∧
    handle_url_normalize "instagram.com/p/abc"
      = NormalizeResult.proceed "https://ddinstagram.com/p/abc" ∧
    handle_url_model "instagram.com/p/abc" none resolver6 5
      = ([Act.replyButtons (present_quality_options exampleFormats)],
          some (mkVideoInfo "https://ddinstagram.com/p/abc" ⟨60, "t", exampleFormats⟩), [5]) := by
  exact ⟨by decide, by decide, by decide, by decide⟩

/-- Claim C1 evidence (code bug): after a URL submission and an explicit
quality pick, the still-pending auto-select job fires a second resolution
trigger; the second event is not a no-op and the state changes again, against
the bot's own prompt text that auto-select happens only without a pick. -/
theorem C1_double_resolution :
    triggerCount c1state1.acts = 1 ∧
    c1state2 ≠ c1state1 ∧
    triggerCount c1state2.acts = 2 ∧
    c1state2.acts = c1state1.acts
      ++ [Act.editMsg 7 Msg.autoSelecting, Act.botSend (Msg.dlFailed Err.keyError)] := by
  exact ⟨by decide, by decide, by decide, by decide⟩

/-- Claim C5 (amended: the callback has no identity guard and is not silent,
but it never mutates the stored session): whenever a scheduled job fires, it
unconditionally edits its recorded message and runs an automatic processing
attempt that fails at the fresh-store lookup; the store is left unchanged. -/
theorem C5_stale_timeout_no_guard (env : Env) (st : BotState) (mid : Nat)
    (h : st.jobs.contains mid = true) :
    stepEv env st (Ev.jobFire mid)
      = { store := st.store
          jobs := st.jobs.erase mid
          acts := st.acts ++ [Act.editMsg mid Msg.autoSelecting,
                              Act.botSend (Msg.dlFailed Err.keyError)] } := by
  simp only [stepEv]
  rw [if_pos h]
  rfl

/-- Witness for C5: firing the superseded session's job on the two-submission
state behaves exactly as the amended claim states. -/
theorem C5_witness :
    stepEv env0 c5state (Ev.jobFire 1)
      = { store := c5state.store
          jobs := c5state.jobs.erase 1
          acts := c5state.acts ++ [Act.editMsg 1 Msg.autoSelecting,
                                   Act.botSend (Msg.dlFailed Err.keyError)] } :=
  C5_stale_timeout_no_guard env0 c5state 1 (by decide)

/-- Counterexample for C5: the timeout callback of the superseded first
session does not silently exit: it edits its message and runs a processing
attempt, changing the state. -/
theorem C5_counterexample :
    stepEv env0 c5state (Ev.jobFire 1) ≠ c5state ∧
    (stepEv env0 c5state (Ev.jobFire 1)).acts ≠ c5state.acts ∧
    (stepEv env0 c5state (Ev.jobFire 1)).acts
      = c5state.acts ++ [Act.editMsg 1 Msg.autoSelecting,
                         Act.botSend (Msg.dlFailed Err.keyError)] ∧
    (stepEv env0 c5state (Ev.jobFire 1)).store = c5state.store := by
  exact ⟨by decide, by decide, by decide, by decide⟩

end VideoBot
